import Mathlib

/-!
Verification of `Telegram/SourceFiles/ui/effects/premium_graphics.cpp`
(namespace `Ui::Premium`).

The widgets are embedded shallowly: machine `int`s become `ℤ`, C++ `float64`
becomes `ℚ`, and the event-driven state of each widget becomes explicit state
passing over a small operation type.  All divisions in the source are reached
only with non-negative operands (guarded by emptiness / count checks), where
C++ truncating division and Lean's integer division agree.
-/

namespace Premium

/-- `std::clamp(v, lo, hi)`: `v < lo ? lo : hi < v ? hi : v`. -/
def stdClamp (v lo hi : ℚ) : ℚ :=
  if v < lo then lo else if hi < v then hi else v

/-- The mutable state of class `Bubble`: `int _counter = -1;` and
`EdgeProgress _tailEdge = 0.;` (lines 108-109). -/
structure Bubble where
  counter : ℤ
  tailEdge : ℚ
deriving DecidableEq

/-- A freshly constructed `Bubble`: the member initialisers
`_counter = -1`, `_tailEdge = 0.`. -/
def Bubble.init : Bubble :=
  { counter := -1, tailEdge := 0 }

/-- `Bubble::setCounter(int value)`: `if (_counter != value) { _counter = value; ... }`. -/
def Bubble.setCounter (b : Bubble) (value : ℤ) : Bubble :=
  if b.counter ≠ value then { b with counter := value } else b

/-- `Bubble::setTailEdge(EdgeProgress edge)`: `_tailEdge = std::clamp(edge, 0., 1.);`. -/
def Bubble.setTailEdge (b : Bubble) (edge : ℚ) : Bubble :=
  { b with tailEdge := stdClamp edge 0 1 }

/-- Whether `Bubble::paintBubble` paints anything: it begins with
`if (_counter < 0) { return; }` and afterwards always draws. -/
def Bubble.paintBubblePaints (b : Bubble) : Bool :=
  if b.counter < 0 then false else true

/-- Whether `BubbleWidget::paintEvent` paints anything: it begins with
`if (_bubble.counter() <= 0) { return; }` and afterwards always draws. -/
def BubbleWidget.paintEventPaints (b : Bubble) : Bool :=
  if b.counter ≤ 0 then false else true

/-- The mutating operations offered by `Bubble`'s public interface. -/
inductive BubbleOp where
  | setCounter (value : ℤ)
  | setTailEdge (edge : ℚ)
deriving DecidableEq

/-- Apply one operation to a bubble. -/
def Bubble.apply (b : Bubble) : BubbleOp → Bubble
  | BubbleOp.setCounter v => b.setCounter v
  | BubbleOp.setTailEdge e => b.setTailEdge e

/-- Run a sequence of operations on a bubble. -/
def Bubble.run (b : Bubble) : List BubbleOp → Bubble
  | [] => b
  | op :: ops => (b.apply op).run ops

theorem Bubble.run_nil (b : Bubble) : b.run [] = b := rfl

theorem Bubble.run_cons (b : Bubble) (op : BubbleOp) (ops : List BubbleOp) :
    b.run (op :: ops) = (b.apply op).run ops := rfl

theorem Bubble.setCounter_tailEdge (b : Bubble) (v : ℤ) :
    (b.setCounter v).tailEdge = b.tailEdge := by
  unfold Bubble.setCounter
  split <;> rfl

theorem Bubble.setCounter_counter (b : Bubble) (v : ℤ) :
    (b.setCounter v).counter = v := by
  unfold Bubble.setCounter
  split
  · rfl
  · next h => exact not_not.mp h

theorem stdClamp_unit (v : ℚ) : 0 ≤ stdClamp v 0 1 ∧ stdClamp v 0 1 ≤ 1 := by
  unfold stdClamp
  split_ifs with h1 h2 <;> constructor <;> linarith

theorem tailEdge_unit_interval (ops : List BubbleOp) (b : Bubble)
    (hb : 0 ≤ b.tailEdge ∧ b.tailEdge ≤ 1) :
    0 ≤ (b.run ops).tailEdge ∧ (b.run ops).tailEdge ≤ 1 := by
  induction ops generalizing b with
  | nil => exact hb
  | cons op ops ih =>
    rw [Bubble.run_cons]
    apply ih
    cases op with
    | setCounter v =>
      rw [show b.apply (BubbleOp.setCounter v) = b.setCounter v from rfl,
        Bubble.setCounter_tailEdge]
      exact hb
    | setTailEdge e => exact stdClamp_unit e

/-- C1: every value `e` passed to `Bubble::setTailEdge` is stored as
`clamp(e, 0, 1)`, and, starting from the initial value `0`, the tail-edge
progress stays in `[0, 1]` after every sequence of bubble operations. -/
theorem setTailEdge_clamps_and_stays_in_unit_interval :
    (∀ (b : Bubble) (e : ℚ), (b.setTailEdge e).tailEdge = stdClamp e 0 1) ∧
    (∀ ops : List BubbleOp,
      0 ≤ (Bubble.init.run ops).tailEdge ∧ (Bubble.init.run ops).tailEdge ≤ 1) := by
  constructor
  · intro b e
    rfl
  · intro ops
    exact tailEdge_unit_interval ops Bubble.init ⟨le_refl 0, zero_le_one⟩

theorem counter_pos_needs_positive_setCounter (ops : List BubbleOp) (b : Bubble)
    (hb : b.counter ≤ 0) (hpos : 0 < (b.run ops).counter) :
    ∃ v : ℤ, BubbleOp.setCounter v ∈ ops ∧ 0 < v := by
  induction ops generalizing b with
  | nil =>
    rw [Bubble.run_nil] at hpos
    omega
  | cons op ops ih =>
    rw [Bubble.run_cons] at hpos
    cases op with
    | setCounter v =>
      by_cases hv : 0 < v
      · exact ⟨v, List.mem_cons_self _ _, hv⟩
      · obtain ⟨w, hw, hwpos⟩ := ih (b.apply (BubbleOp.setCounter v))
          (by rw [show b.apply (BubbleOp.setCounter v) = b.setCounter v from rfl,
            Bubble.setCounter_counter]; omega) hpos
        exact ⟨w, List.mem_cons_of_mem _ hw, hwpos⟩
    | setTailEdge e =>
      obtain ⟨w, hw, hwpos⟩ := ih (b.apply (BubbleOp.setTailEdge e)) hb hpos
      exact ⟨w, List.mem_cons_of_mem _ hw, hwpos⟩

/-- C8: `Bubble::paintBubble` paints nothing while the counter is negative,
the counter starts at `-1`, `BubbleWidget::paintEvent` paints nothing while
the counter is `≤ 0`, and hence any run of operations after which the widget
paints must contain a `setCounter` with a positive value. -/
theorem bubble_never_rendered_before_positive_counter :
    (∀ b : Bubble, b.counter < 0 → b.paintBubblePaints = false) ∧
    Bubble.init.counter = -1 ∧
    (∀ b : Bubble, b.counter ≤ 0 → BubbleWidget.paintEventPaints b = false) ∧
    (∀ ops : List BubbleOp,
      BubbleWidget.paintEventPaints (Bubble.init.run ops) = true →
      ∃ v : ℤ, BubbleOp.setCounter v ∈ ops ∧ 0 < v) := by
  refine ⟨?_, rfl, ?_, ?_⟩
  · intro b hb
    unfold Bubble.paintBubblePaints
    exact if_pos hb
  · intro b hb
    unfold BubbleWidget.paintEventPaints
    exact if_pos hb
  · intro ops hpaint
    apply counter_pos_needs_positive_setCounter ops Bubble.init (by norm_num [Bubble.init])
    by_contra hle
    rw [not_lt] at hle
    rw [show BubbleWidget.paintEventPaints (Bubble.init.run ops)
      = false from if_pos hle] at hpaint
    exact Bool.false_ne_true hpaint

/-- Witness for C8 at concrete inputs. -/
theorem bubble_never_rendered_before_positive_counter_witness :
    Bubble.paintBubblePaints { counter := -3, tailEdge := 0 } = false ∧
    BubbleWidget.paintEventPaints { counter := 0, tailEdge := 0 } = false ∧
    (∃ v : ℤ, BubbleOp.setCounter v ∈ [BubbleOp.setCounter 5] ∧ 0 < v) :=
  ⟨bubble_never_rendered_before_positive_counter.1 _ (by decide),
    bubble_never_rendered_before_positive_counter.2.2.1 _ (by decide),
    bubble_never_rendered_before_positive_counter.2.2.2 [BubbleOp.setCounter 5] (by decide)⟩

/-- `constexpr auto kStepBeforeDeflection = 0.75;`. -/
def kStepBeforeDeflection : ℚ := 3 / 4

/-- `constexpr auto kStepAfterDeflection = kStepBeforeDeflection + (1. - kStepBeforeDeflection) / 2.;`. -/
def kStepAfterDeflection : ℚ :=
  kStepBeforeDeflection + (1 - kStepBeforeDeflection) / 2

/-- The C++ cast `int(x)` on a `float64`: truncation toward zero. -/
def intOfRat (q : ℚ) : ℤ :=
  if 0 ≤ q then ⌊q⌋ else ⌈q⌉

/-- The counter computed on one tick of the appearance animation started in
`BubbleWidget::BubbleWidget`: with `counterProgress = std::clamp(value / _stepAfterDeflection, 0., 1.)`,
the tick does `int(0 + counterProgress * _currentCounter)`. -/
def appearanceTickCounter (stepAfterDeflection : ℚ) (currentCounter : ℤ) (value : ℚ) : ℤ :=
  intOfRat (0 + stdClamp (value / stepAfterDeflection) 0 1 * (currentCounter : ℚ))

/-- The effect of one appearance-animation tick on the bubble:
`_bubble.setCounter(counter)` with the tick's computed counter. -/
def appearanceTick (b : Bubble) (stepAfterDeflection : ℚ) (currentCounter : ℤ)
    (value : ℚ) : Bubble :=
  b.setCounter (appearanceTickCounter stepAfterDeflection currentCounter value)

theorem stdClamp_unit_mono {a b : ℚ} (h : a ≤ b) :
    stdClamp a 0 1 ≤ stdClamp b 0 1 := by
  unfold stdClamp
  split_ifs <;> linarith

theorem stdClamp_unit_eq_one {v : ℚ} (h : 1 ≤ v) : stdClamp v 0 1 = 1 := by
  unfold stdClamp
  split_ifs with h1 h2
  · linarith
  · rfl
  · linarith

theorem appearanceTickCounter_nonneg (s : ℚ) (c : ℤ) (hc : 0 ≤ c) (v : ℚ) :
    0 ≤ appearanceTickCounter s c v := by
  unfold appearanceTickCounter intOfRat
  have h0 : (0 : ℚ) ≤ stdClamp (v / s) 0 1 * (c : ℚ) :=
    mul_nonneg (stdClamp_unit (v / s)).1 (by exact_mod_cast hc)
  rw [if_pos (by linarith)]
  exact Int.le_floor.mpr (by push_cast; linarith)

theorem appearanceTickCounter_le (s : ℚ) (c : ℤ) (hc : 0 ≤ c) (v : ℚ) :
    appearanceTickCounter s c v ≤ c := by
  unfold appearanceTickCounter intOfRat
  have h1 : stdClamp (v / s) 0 1 * (c : ℚ) ≤ (c : ℚ) := by
    have := (stdClamp_unit (v / s)).2
    have hc' : (0 : ℚ) ≤ (c : ℚ) := by exact_mod_cast hc
    nlinarith [(stdClamp_unit (v / s)).1]
  split_ifs with h
  · calc ⌊0 + stdClamp (v / s) 0 1 * (c : ℚ)⌋ ≤ ⌊(c : ℚ)⌋ :=
        Int.floor_le_floor (by linarith)
      _ = c := Int.floor_intCast c
  · calc ⌈0 + stdClamp (v / s) 0 1 * (c : ℚ)⌉ ≤ ⌈(c : ℚ)⌉ :=
        Int.ceil_le_ceil (by linarith)
      _ = c := Int.ceil_intCast c

/-- C2: on every appearance-animation tick the bubble counter is set to
`int(clamp(v / stepAfterDeflection, 0, 1) * currentCounter)`; with the code's
possible step values (`kStepAfterDeflection`, or `1` when deflection is
ignored) and a non-negative target, the displayed counter lies between `0`
and the target, is monotone in the animation value, and equals the target at
animation value `1`. -/
theorem appearance_animation_counter_correct
    (s : ℚ) (hs : s = kStepAfterDeflection ∨ s = 1)
    (c : ℤ) (hc : 0 ≤ c) :
    (∀ (b : Bubble) (v : ℚ),
      (appearanceTick b s c v).counter = appearanceTickCounter s c v) ∧
    (∀ v : ℚ, 0 ≤ appearanceTickCounter s c v ∧ appearanceTickCounter s c v ≤ c) ∧
    (∀ v w : ℚ, v ≤ w →
      appearanceTickCounter s c v ≤ appearanceTickCounter s c w) ∧
    appearanceTickCounter s c 1 = c := by
  have hs0 : 0 < s := by
    rcases hs with h | h <;>
      rw [h] <;> norm_num [kStepAfterDeflection, kStepBeforeDeflection]
  have hs1 : s ≤ 1 := by
    rcases hs with h | h <;>
      rw [h] <;> norm_num [kStepAfterDeflection, kStepBeforeDeflection]
  refine ⟨?_, ?_, ?_, ?_⟩
  · intro b v
    exact Bubble.setCounter_counter b _
  · intro v
    exact ⟨appearanceTickCounter_nonneg s c hc v, appearanceTickCounter_le s c hc v⟩
  · intro v w hvw
    have hdiv : v / s ≤ w / s := by gcongr
    have hmul : stdClamp (v / s) 0 1 * (c : ℚ) ≤ stdClamp (w / s) 0 1 * (c : ℚ) :=
      mul_le_mul_of_nonneg_right (stdClamp_unit_mono hdiv) (by exact_mod_cast hc)
    have hv0 : (0 : ℚ) ≤ stdClamp (v / s) 0 1 * (c : ℚ) :=
      mul_nonneg (stdClamp_unit _).1 (by exact_mod_cast hc)
    have hw0 : (0 : ℚ) ≤ stdClamp (w / s) 0 1 * (c : ℚ) :=
      mul_nonneg (stdClamp_unit _).1 (by exact_mod_cast hc)
    unfold appearanceTickCounter intOfRat
    rw [if_pos (by linarith), if_pos (by linarith)]
    exact Int.floor_le_floor (by linarith)
  · have hone : (1 : ℚ) ≤ 1 / s := by
      rw [le_div_iff hs0]
      linarith
    unfold appearanceTickCounter intOfRat
    rw [stdClamp_unit_eq_one hone, one_mul, zero_add,
      if_pos (by exact_mod_cast hc), Int.floor_intCast]

/-- Witness for C2 at `s = 1`, `c = 4`. -/
theorem appearance_animation_counter_correct_witness :
    ((1 : ℚ) = kStepAfterDeflection ∨ (1 : ℚ) = 1) ∧ (0 : ℤ) ≤ 4 ∧
    appearanceTickCounter 1 4 1 = 4 :=
  ⟨Or.inr rfl, by decide,
    (appearance_animation_counter_correct 1 (Or.inr rfl) 4 (by decide)).2.2.2⟩

/-- The per-row state built by `AddAccountsRow`: the radio group's current
value and the checked flag of each account's `RoundImageCheckbox`, indexed
positionally. -/
structure AccountsRow where
  groupValue : ℤ
  checked : List Bool
deriving DecidableEq

/-- The changed callback installed by `AddAccountsRow`:
`for (auto i = 0; i < state->accounts.size(); i++) { state->accounts[i].checkbox.setChecked(i == value); }`. -/
def accountsChangedCallback (row : AccountsRow) (value : ℤ) : AccountsRow :=
  { row with
    checked :=
      (List.range row.checked.length).map (fun (i : ℕ) => decide ((i : ℤ) = value)) }

/-- Modelled from the spec: `Ui::RadiobuttonGroup::setValue` is declared in
`ui/widgets/checkbox.h`, which is outside this source tree.  Per the spec the
widgets "react to layout-size/checkbox-click events": setting the group's
value stores the new value and invokes the changed callback registered by
`AddAccountsRow` with it. -/
def RadiobuttonGroup.setValue (row : AccountsRow) (value : ℤ) : AccountsRow :=
  accountsChangedCallback { row with groupValue := value } value

/-- The clicked callback installed on account button `index`:
`widget->setClickedCallback([=] { group->setValue(index); });`. -/
def accountClick (row : AccountsRow) (index : ℕ) : AccountsRow :=
  RadiobuttonGroup.setValue row (index : ℤ)

/-- C3: clicking the account button at positional index `i` sets the radio
group's value to `i`, and the changed callback then checks exactly the
checkbox at index `i`: afterwards checkbox `j` is checked iff `j = i`. -/
theorem accounts_click_checks_exactly_clicked
    (row : AccountsRow) (i : ℕ) (hi : i < row.checked.length) :
    (accountClick row i).groupValue = (i : ℤ) ∧
    (accountClick row i).checked.length = row.checked.length ∧
    ∀ j : ℕ, j < row.checked.length →
      ((accountClick row i).checked[j]? = some true ↔ j = i) := by
  refine ⟨rfl, by simp [accountClick, RadiobuttonGroup.setValue, accountsChangedCallback], ?_⟩
  intro j hj
  simp only [accountClick, RadiobuttonGroup.setValue, accountsChangedCallback]
  rw [List.getElem?_map, List.getElem?_range hj]
  simp

/-- Witness for C3: clicking index 1 in a three-account row. -/
theorem accounts_click_checks_exactly_clicked_witness :
    (accountClick { groupValue := 0, checked := [true, false, false] } 1).groupValue = 1 ∧
    ((accountClick { groupValue := 0, checked := [true, false, false] } 1).checked[1]?
      = some true ↔ 1 = 1) ∧
    ((accountClick { groupValue := 0, checked := [true, false, false] } 1).checked[0]?
      = some true ↔ 0 = 1) :=
  ⟨(accounts_click_checks_exactly_clicked _ 1 (by decide)).1,
    (accounts_click_checks_exactly_clicked _ 1 (by decide)).2.2 1 (by decide),
    (accounts_click_checks_exactly_clicked _ 1 (by decide)).2.2 0 (by decide)⟩

/-- `QSize`, with `isEmpty()` true iff width or height is `≤ 0`. -/
structure QSize where
  width : ℤ
  height : ℤ
deriving DecidableEq

def QSize.isEmpty (s : QSize) : Bool :=
  decide (s.width ≤ 0) || decide (s.height ≤ 0)

/-- The state of class `Line`: the cached half widths `_leftWidth`,
`_rightWidth`, the (logical) sizes of the two cached pixmaps, and which size
`recache` ran for last (`none` before the first run: both pixmaps null). -/
structure Line where
  leftWidth : ℤ
  rightWidth : ℤ
  leftPixmapWidth : ℤ
  leftPixmapHeight : ℤ
  rightPixmapWidth : ℤ
  rightPixmapHeight : ℤ
  recachedFor : Option QSize
deriving DecidableEq

/-- A freshly constructed `Line`: `int _leftWidth = 0; int _rightWidth = 0;`
and default-constructed (null, 0×0) pixmaps. -/
def Line.init : Line :=
  { leftWidth := 0, rightWidth := 0,
    leftPixmapWidth := 0, leftPixmapHeight := 0,
    rightPixmapWidth := 0, rightPixmapHeight := 0,
    recachedFor := none }

/-- `Line::recache(const QSize &s)`: `r = QRect(0, 0, _leftWidth, s.height())`;
both `_leftPixmap` and `_rightPixmap` are copies of one blank pixmap of size
`r.size() * DevicePixelRatio()` (logical size `r.size()`), repainted in full. -/
def Line.recache (l : Line) (s : QSize) : Line :=
  { l with
    leftPixmapWidth := l.leftWidth, leftPixmapHeight := s.height,
    rightPixmapWidth := l.leftWidth, rightPixmapHeight := s.height,
    recachedFor := some s }

/-- What one delivery of `sizeValue()` did: the new state, and whether
`recache(s)` and `update()` were called. -/
structure LineSizeResult where
  line : Line
  didRecache : Bool
  didUpdate : Bool
deriving DecidableEq

/-- The `sizeValue()` handler installed in `Line`'s constructor:
`if (s.isEmpty()) { return; } _leftWidth = (s.width() / 2);
_rightWidth = (s.width() - _leftWidth); recache(s); update();`. -/
def Line.onSize (l : Line) (s : QSize) : LineSizeResult :=
  if s.isEmpty then { line := l, didRecache := false, didUpdate := false }
  else
    { line := Line.recache
        { l with leftWidth := s.width / 2, rightWidth := s.width - s.width / 2 } s,
      didRecache := true, didUpdate := true }

/-- `Line::paintEvent` draws `_leftPixmap` at `(0, 0)`. -/
def Line.leftPixmapX (_ : Line) : ℤ := 0

/-- `Line::paintEvent` draws `_rightPixmap` at `(_leftWidth, 0)`. -/
def Line.rightPixmapX (l : Line) : ℤ := l.leftWidth

/-- Whether the drawn left pixmap covers pixel column `x`. -/
def Line.leftCoversColumn (l : Line) (x : ℤ) : Bool :=
  decide (l.leftPixmapX ≤ x) && decide (x < l.leftPixmapX + l.leftPixmapWidth)

/-- Whether the drawn right pixmap covers pixel column `x`. -/
def Line.rightCoversColumn (l : Line) (x : ℤ) : Bool :=
  decide (l.rightPixmapX ≤ x) && decide (x < l.rightPixmapX + l.rightPixmapWidth)

/-- Whether either drawn pixmap covers pixel column `x`. -/
def Line.coversColumn (l : Line) (x : ℤ) : Bool :=
  l.leftCoversColumn x || l.rightCoversColumn x

/-- C4 counterexample: the claim says every resize recaches and repaints, but
resizing a `Line` (last recached for 10×10) to the empty size 0×5 calls
neither `recache` nor `update`, and the cached pixmaps still belong to the
old size. -/
theorem line_resize_to_empty_size_skips_recache :
    (Line.onSize (Line.onSize Line.init { width := 10, height := 10 }).line
      { width := 0, height := 5 }).didRecache = false ∧
    (Line.onSize (Line.onSize Line.init { width := 10, height := 10 }).line
      { width := 0, height := 5 }).didUpdate = false ∧
    (Line.onSize (Line.onSize Line.init { width := 10, height := 10 }).line
      { width := 0, height := 5 }).line.recachedFor
      = some { width := 10, height := 10 } := by
  decide

/-- C4 (amended): whenever a `Line` is resized to a non-empty size, both
cached pixmaps are invalidated and recomputed via `recache` for that size and
the widget is repainted; resizes to an empty size are ignored. -/
theorem line_resize_nonempty_recaches_and_repaints
    (l : Line) (s : QSize) (h : s.isEmpty = false) :
    (l.onSize s).didRecache = true ∧
    (l.onSize s).didUpdate = true ∧
    (l.onSize s).line.recachedFor = some s ∧
    (l.onSize s).line.leftPixmapWidth = s.width / 2 ∧
    (l.onSize s).line.rightPixmapHeight = s.height := by
  unfold Line.onSize
  rw [h]
  simp [Line.recache]

/-- Witness for C4 (amended) at a concrete non-empty size. -/
theorem line_resize_nonempty_recaches_and_repaints_witness :
    QSize.isEmpty { width := 10, height := 10 } = false ∧
    (Line.onSize Line.init { width := 10, height := 10 }).didRecache = true :=
  ⟨by decide,
    (line_resize_nonempty_recaches_and_repaints Line.init
      { width := 10, height := 10 } (by decide)).1⟩

/-- C5 counterexample: after resizing to width 11, the right cached pixmap
has width `5 = floor(11 / 2)`, not `6 = 11 - floor(11 / 2)`, and pixel
column 10 is covered by neither drawn pixmap, so the two halves do not
partition the widget width. -/
theorem line_halves_leave_gap_at_odd_width :
    (Line.onSize Line.init { width := 11, height := 10 }).line.rightPixmapWidth
      ≠ 11 - 11 / 2 ∧
    (Line.onSize Line.init { width := 11, height := 10 }).line.coversColumn 10
      = false := by
  decide

/-- C5 (amended): for a non-empty size of width `w`, the left cached pixmap
has width `⌊w / 2⌋` and is drawn at `x = 0`; the right cached pixmap is drawn
at `x = ⌊w / 2⌋` but also has width `⌊w / 2⌋` (the `_rightWidth` field alone
equals `w - ⌊w / 2⌋`).  The drawn halves never overlap and together cover
exactly the columns `[0, 2·⌊w / 2⌋)`: the full width when `w` is even, all
but the last column when `w` is odd. -/
theorem line_halves_layout
    (l : Line) (s : QSize) (hw : 0 < s.width) (hh : 0 < s.height) :
    ((l.onSize s).line.leftPixmapWidth = s.width / 2 ∧
      (l.onSize s).line.rightPixmapWidth = s.width / 2 ∧
      (l.onSize s).line.rightWidth = s.width - s.width / 2) ∧
    ((l.onSize s).line.leftPixmapX = 0 ∧
      (l.onSize s).line.rightPixmapX = s.width / 2) ∧
    (∀ x : ℤ, ¬((l.onSize s).line.leftCoversColumn x = true ∧
      (l.onSize s).line.rightCoversColumn x = true)) ∧
    (∀ x : ℤ, (l.onSize s).line.coversColumn x = true ↔
      0 ≤ x ∧ x < 2 * (s.width / 2)) ∧
    (s.width % 2 = 0 → 2 * (s.width / 2) = s.width) := by
  have hempty : s.isEmpty = false := by
    unfold QSize.isEmpty
    simp only [Bool.or_eq_false_iff, decide_eq_false_iff_not, not_le]
    exact ⟨hw, hh⟩
  unfold Line.onSize
  rw [hempty]
  simp only [Bool.false_eq_true, if_false]
  refine ⟨⟨rfl, rfl, rfl⟩, ⟨rfl, rfl⟩, ?_, ?_, ?_⟩
  · intro x hx
    simp only [Line.recache, Line.leftCoversColumn, Line.rightCoversColumn,
      Line.leftPixmapX, Line.rightPixmapX, Bool.and_eq_true, decide_eq_true_eq] at hx
    omega
  · intro x
    simp only [Line.recache, Line.coversColumn, Line.leftCoversColumn,
      Line.rightCoversColumn, Line.leftPixmapX, Line.rightPixmapX,
      Bool.or_eq_true, Bool.and_eq_true, decide_eq_true_eq]
    omega
  · omega

/-- Witness for C5 (amended) at the even width 10. -/
theorem line_halves_layout_witness :
    (0 : ℤ) < 10 ∧ (0 : ℤ) < 7 ∧
    (Line.onSize Line.init { width := 10, height := 7 }).line.rightPixmapWidth
      = 10 / 2 ∧
    2 * ((10 : ℤ) / 2) = 10 :=
  ⟨by decide, by decide,
    (line_halves_layout Line.init { width := 10, height := 7 }
      (by decide) (by decide)).1.2.1,
    (line_halves_layout Line.init { width := 10, height := 7 }
      (by decide) (by decide)).2.2.2.2 (by decide)⟩

/-- The geometry computed for one account by the `sizeValue()` handler of
`AddAccountsRow`: widget size, left offset, the centre handed to `cacheBadge`
for the `+1` badge pixmap, and the gradient segment handed to
`checkbox.setColorOverride`. -/
structure AccountLayout where
  widgetWidth : ℤ
  widgetHeight : ℤ
  left : ℤ
  badgeCenter : ℤ
  colorLeft : ℤ
  colorWidth : ℤ
deriving DecidableEq

/-- The body of the container `sizeValue()` handler in `AddAccountsRow`:
`columnWidth = size.width() / count`, and for each `i`:
`resize(columnWidth, size.height()); moveToLeft(columnWidth * i, 0);
badge = cacheBadge(left + columnWidth / 2);
checkbox.setColorOverride(... left + (columnWidth - photoWidth) / 2, photoWidth)`
where `photoWidth = (imageRadius + checkSelectWidth) * 2`. -/
def accountsOnSize (count : ℕ) (s : QSize) (photoWidth : ℤ) : List AccountLayout :=
  let columnWidth := s.width / (count : ℤ)
  (List.range count).map (fun (i : ℕ) =>
    let left := columnWidth * (i : ℤ)
    { widgetWidth := columnWidth, widgetHeight := s.height,
      left := left,
      badgeCenter := left + columnWidth / 2,
      colorLeft := left + (columnWidth - photoWidth) / 2,
      colorWidth := photoWidth })

/-- C6: on every container size change, each of the `count` accounts is
re-laid-out: account `i` is resized to column width `⌊w / count⌋`, moved to
left offset `i · ⌊w / count⌋`, and its badge centre and checkbox gradient
override are recomputed from that new position. -/
theorem accounts_relayout_on_size_change
    (count : ℕ) (hcount : 0 < count) (s : QSize) (hw : 0 ≤ s.width)
    (photoWidth : ℤ) :
    (accountsOnSize count s photoWidth).length = count ∧
    ∀ i : ℕ, i < count →
      (accountsOnSize count s photoWidth)[i]? = some
        { widgetWidth := ⌊(s.width : ℚ) / (count : ℚ)⌋,
          widgetHeight := s.height,
          left := (i : ℤ) * ⌊(s.width : ℚ) / (count : ℚ)⌋,
          badgeCenter := (i : ℤ) * ⌊(s.width : ℚ) / (count : ℚ)⌋
            + ⌊(s.width : ℚ) / (count : ℚ)⌋ / 2,
          colorLeft := (i : ℤ) * ⌊(s.width : ℚ) / (count : ℚ)⌋
            + (⌊(s.width : ℚ) / (count : ℚ)⌋ - photoWidth) / 2,
          colorWidth := photoWidth } := by
  have hfloor : ⌊(s.width : ℚ) / (count : ℚ)⌋ = s.width / (count : ℤ) :=
    Rat.floor_intCast_div_natCast s.width count
  constructor
  · simp [accountsOnSize]
  · intro i hi
    unfold accountsOnSize
    rw [List.getElem?_map, List.getElem?_range hi]
    simp only [Option.map_some']
    rw [hfloor, mul_comm ((i : ℤ)) (s.width / (count : ℤ))]

/-- Witness for C6: three accounts in a 31-wide container. -/
theorem accounts_relayout_on_size_change_witness :
    0 < 3 ∧ (0 : ℤ) ≤ 31 ∧
    (accountsOnSize 3 { width := 31, height := 5 } 8)[2]? = some
      { widgetWidth := ⌊(31 : ℚ) / (3 : ℚ)⌋, widgetHeight := 5,
        left := (2 : ℤ) * ⌊(31 : ℚ) / (3 : ℚ)⌋,
        badgeCenter := (2 : ℤ) * ⌊(31 : ℚ) / (3 : ℚ)⌋ + ⌊(31 : ℚ) / (3 : ℚ)⌋ / 2,
        colorLeft := (2 : ℤ) * ⌊(31 : ℚ) / (3 : ℚ)⌋ + (⌊(31 : ℚ) / (3 : ℚ)⌋ - 8) / 2,
        colorWidth := 8 } :=
  ⟨by decide, by decide,
    (accounts_relayout_on_size_change 3 (by decide) { width := 31, height := 5 }
      (by decide) 8).2 2 (by decide)⟩

/-- One entry of `AccountsRowArgs::entries`. -/
structure AccountEntry where
  name : String
deriving DecidableEq

/-- The `sizeValue()` handler of `AddAccountsRow` with its division modelled
fallibly: the loop in `AddAccountsRow` pushes exactly one account per entry,
so `count = state->accounts.size() = entries.length`, and
`columnWidth = size.width() / count` is a C++ integer division by zero
(undefined behaviour, modelled as `none`) when there are no entries. -/
def accountsOnSizeChecked (entries : List AccountEntry) (s : QSize)
    (photoWidth : ℤ) : Option (List AccountLayout) :=
  if entries.length = 0 then none
  else some (accountsOnSize entries.length s photoWidth)

/-- C10: for an empty entries list the first size change divides by zero
(no defined result); for every non-empty list the division is well-defined
and the handler lays out one column per entry. -/
theorem accounts_row_requires_nonempty_entries :
    (∀ (s : QSize) (photoWidth : ℤ), accountsOnSizeChecked [] s photoWidth = none) ∧
    (∀ (entries : List AccountEntry) (s : QSize) (photoWidth : ℤ),
      entries ≠ [] →
      accountsOnSizeChecked entries s photoWidth
        = some (accountsOnSize entries.length s photoWidth)) := by
  constructor
  · intro s photoWidth
    rfl
  · intro entries s photoWidth hne
    unfold accountsOnSizeChecked
    rw [if_neg (by simpa [List.length_eq_zero] using hne)]

/-- Witness for C10 with one entry. -/
theorem accounts_row_requires_nonempty_entries_witness :
    accountsOnSizeChecked [] { width := 10, height := 5 } 8 = none ∧
    accountsOnSizeChecked [{ name := "a" }] { width := 10, height := 5 } 8
      = some (accountsOnSize 1 { width := 10, height := 5 } 8) :=
  ⟨accounts_row_requires_nonempty_entries.1 _ 8,
    accounts_row_requires_nonempty_entries.2 [{ name := "a" }] _ 8 (by simp)⟩

/-- The parameters of one `_appearanceAnimation.start(...)` call. -/
structure SimpleAnimationStart where
  fromValue : ℚ
  toValue : ℚ
deriving DecidableEq

/-- The subscription made in `BubbleWidget::BubbleWidget`:
`std::move(showFinishes) | rpl::take(1) | rpl::start_with_next(handler)`,
where the handler calls `_appearanceAnimation.start(..., 0., 1., ...)`.
Given the full list of events fired on `showFinishes`, this returns the
animation starts the subscription performs. -/
def appearanceAnimationStarts (showFinishes : List Unit) : List SimpleAnimationStart :=
  (showFinishes.take 1).map (fun _ => { fromValue := 0, toValue := 1 })

/-- C7: the appearance animation is started at most once over any sequence of
`showFinishes` events — exactly once, by the first event, with later events
ignored — and the start drives the progress value from `0` to `1`; with no
event it is never started. -/
theorem appearance_animation_starts_once :
    (∀ events : List Unit, (appearanceAnimationStarts events).length ≤ 1) ∧
    (∀ (e : Unit) (later : List Unit),
      appearanceAnimationStarts (e :: later) = [{ fromValue := 0, toValue := 1 }]) ∧
    appearanceAnimationStarts [] = [] := by
  refine ⟨?_, ?_, rfl⟩
  · intro events
    cases events with
    | nil => decide
    | cons e later => simp [appearanceAnimationStarts]
  · intro e later
    rfl

/-- One entry handed to `ShowListBox`. -/
structure ListEntry where
  leftNumber : ℤ
  rightNumber : ℤ
deriving DecidableEq

/-- A `Line` as tracked by `ShowListBox`, with whether
`setColorOverride` has been applied to it. -/
structure ListBoxLine where
  leftNumber : ℤ
  rightNumber : ℤ
  colored : Bool
deriving DecidableEq

/-- `ShowListBox`: one `Line` is added per entry and collected in `lines`;
then `Assert(lines.size() > 2)` runs, and only afterwards every line gets
`setColorOverride`.  A failed assertion aborts (modelled as `Except.error`). -/
def showListBox (entries : List ListEntry) : Except String (List ListBoxLine) :=
  let lines := entries.map (fun e =>
    { leftNumber := e.leftNumber, rightNumber := e.rightNumber,
      colored := false : ListBoxLine })
  if lines.length > 2 then
    Except.ok (lines.map (fun l => { l with colored := true }))
  else
    Except.error "Assertion failed: lines.size() > 2"

/-- C9: `ShowListBox` builds one line per entry and asserts
`lines.size() > 2`: with two or fewer entries it fails before any line is
colored, and with more than two entries it succeeds and colors every line. -/
theorem showListBox_asserts_more_than_two_entries
    (entries : List ListEntry) :
    (entries.length ≤ 2 →
      showListBox entries = Except.error "Assertion failed: lines.size() > 2") ∧
    (2 < entries.length →
      ∃ lines, showListBox entries = Except.ok lines ∧
        lines.length = entries.length ∧
        ∀ l ∈ lines, l.colored = true) := by
  constructor
  · intro hle
    unfold showListBox
    rw [if_neg (by simpa using hle)]
  · intro hgt
    unfold showListBox
    rw [if_pos (by simpa using hgt)]
    exact ⟨_, rfl, by simp, by simp⟩

/-- Witness for C9 at two and at three entries. -/
theorem showListBox_asserts_more_than_two_entries_witness :
    showListBox [{ leftNumber := 1, rightNumber := 2 },
        { leftNumber := 2, rightNumber := 4 }]
      = Except.error "Assertion failed: lines.size() > 2" ∧
    ∃ lines,
      showListBox [{ leftNumber := 1, rightNumber := 2 },
          { leftNumber := 2, rightNumber := 4 },
          { leftNumber := 3, rightNumber := 6 }]
        = Except.ok lines ∧ lines.length = 3 ∧ ∀ l ∈ lines, l.colored = true :=
  ⟨(showListBox_asserts_more_than_two_entries _).1 (by decide),
    (showListBox_asserts_more_than_two_entries _).2 (by decide)⟩

end Premium
